import Mathlib

/-!
# Verification of the FX (VolatiSense) frontend quantitative logic

Shallow embedding of the risk-analysis and optimizer code of the repository:

* `src/frontend/src/pages/Distributions.tsx` — summary-statistic cards
  (5th/95th percentile) and the percentile-analysis table;
* `src/frontend/src/pages/Backtest.tsx` — `runOptimization`,
  `generateEfficientFrontier`, the CVaR-target slider and the strategy
  comparison table;
* `src/frontend/src/types/index.ts` — the `RiskMetrics` result shape.

JavaScript numbers are modelled as rationals (`ℚ`); `Math.floor` on a
non-negative number is `Int.floor` followed by `Int.toNat`;
`Array.prototype.sort` with the comparator `(a, b) => a - b` is an ascending
sort.  In-place mutation of a React state array is made explicit by passing
the array state in and out of each rendering computation.
-/

/-- JavaScript `Math.floor`, restricted to the non-negative arguments that
occur in this code base: the integer part as a natural number. -/
def jsFloor (q : ℚ) : ℕ :=
  (Int.floor q).toNat

/-- Meaning of `arr.sort((a, b) => a - b)` applied to an array of numbers:
the ascending sort of the list. -/
def sortData (data : List ℚ) : List ℚ :=
  List.insertionSort (· ≤ ·) data

/-- Value of one row of the percentile table of `Distributions.tsx`
(lines 222–235): `const sorted = [...currentData].sort((a, b) => a - b);
const value = sorted[Math.floor(currentData.length * p / 100)];`.
Out-of-range indexing is given the default 0; every theorem below that
depends on the indexed value restricts itself to in-range indices. -/
def percentileValue (data : List ℚ) (p : ℕ) : ℚ :=
  (sortData data).getD (jsFloor ((data.length : ℚ) * p / 100)) 0

/-- The 5th/95th-percentile summary cards of `Distributions.tsx`
(lines 101–112).  Each card evaluates
`currentData.sort((a, b) => a - b)[Math.floor(currentData.length * q)]`
with q = 0.05 and q = 0.95: `Array.prototype.sort` reorders the state array
in place and returns it, so after the two cards render, the state array is
the sorted array.  Returns the two displayed values together with the state
array as it stands after the render. -/
def renderSummaryCards (s : List ℚ) : (ℚ × ℚ) × List ℚ :=
  let s1 := sortData s
  let v05 := s1.getD (jsFloor ((s.length : ℚ) * 0.05)) 0
  let s2 := sortData s1
  let v95 := s2.getD (jsFloor ((s.length : ℚ) * 0.95)) 0
  ((v05, v95), s2)

/-- The percentile-analysis table of `Distributions.tsx` (lines 222–235).
Each row sorts a fresh copy (`[...currentData].sort(...)`), so the state
array comes back unchanged.  Returns the nine displayed values and the
state array after the render. -/
def renderPercentileTable (s : List ℚ) : List ℚ × List ℚ :=
  (([1, 5, 10, 25, 50, 75, 90, 95, 99] : List ℕ).map (percentileValue s), s)

/-- Modelled from the spec: the standard "type 7" quantile required by the
spec ("Percentile interpolation must be linear between order statistics"),
which is absent from the source.  With sorted data x₀ ≤ … ≤ x_{n−1} and
h = (n−1)·p/100, the quantile is x_{⌊h⌋} + (h − ⌊h⌋)·(x_{⌊h⌋+1} − x_{⌊h⌋}).
This definition follows the spec's words and exists only to be compared
with the source-derived definition percentileValue. -/
def quantileType7Spec (data : List ℚ) (p : ℕ) : ℚ :=
  let s := sortData data
  let h : ℚ := ((s.length : ℚ) - 1) * p / 100
  let k : ℕ := jsFloor h
  let x0 := s.getD k 0
  let x1 := s.getD (k + 1) x0
  x0 + (h - (k : ℚ)) * (x1 - x0)

/-- Modelled from the spec: the spec defines
VaR at confidence α as `VaR_α = −percentile(distribution, 100·(1−α))`;
the repository source only declares VaR result types, it does not compute
VaR.  Here the confidence level is the natural number c = 100·α. -/
def varAtConfidence (data : List ℚ) (c : ℕ) : ℚ :=
  -(percentileValue data (100 - c))

/-- The floor of n·p/100 taken over ℚ coincides with natural division. -/
theorem jsFloor_mul_div (n p : ℕ) : jsFloor ((n : ℚ) * p / 100) = n * p / 100 := by
  have h : ((n : ℚ) * p / 100) = ((n * p : ℕ) : ℚ) / ((100 : ℕ) : ℚ) := by
    push_cast
    ring
  rw [jsFloor, h, Rat.floor_natCast_div_natCast]
  omega

theorem sortData_length (data : List ℚ) : (sortData data).length = data.length :=
  (List.perm_insertionSort _ data).length_eq

theorem sortData_sorted (data : List ℚ) : (sortData data).Sorted (· ≤ ·) :=
  List.sorted_insertionSort _ data

/-- Sorting an already produced sort output is the identity: the insertion
sort of a sorted list is itself. -/
theorem sortData_idem (data : List ℚ) : sortData (sortData data) = sortData data := by
  have hperm : List.Perm (sortData (sortData data)) (sortData data) :=
    List.perm_insertionSort _ (sortData data)
  exact (List.eq_of_perm_of_sorted hperm (sortData_sorted _) (sortData_sorted _))

/-- Entries of a sorted list, read through getD at in-range indices, are
monotone in the index. -/
theorem sorted_getD_mono {l : List ℚ} (hs : l.Sorted (· ≤ ·)) {i j : ℕ}
    (hij : i ≤ j) (hj : j < l.length) : l.getD i 0 ≤ l.getD j 0 := by
  have hi : i < l.length := lt_of_le_of_lt hij hj
  rw [List.getD_eq_getElem l 0 hi, List.getD_eq_getElem l 0 hj]
  exact hs.rel_get_of_le (a := ⟨i, hi⟩) (b := ⟨j, hj⟩) hij

/-- Core monotonicity of the source percentile computation: for a nonempty
distribution and levels p₁ ≤ p₂ ≤ 99 the reported value is non-decreasing. -/
theorem percentileValue_mono (data : List ℚ) {p1 p2 : ℕ} (hdata : data ≠ [])
    (hp : p1 ≤ p2) (hp2 : p2 ≤ 99) :
    percentileValue data p1 ≤ percentileValue data p2 := by
  have hn : 0 < data.length := List.length_pos.mpr hdata
  rw [percentileValue, percentileValue, jsFloor_mul_div, jsFloor_mul_div]
  refine sorted_getD_mono (sortData_sorted data)
    (Nat.div_le_div_right (Nat.mul_le_mul_left _ hp)) ?_
  rw [sortData_length]
  have h1 : data.length * p2 ≤ data.length * 99 := Nat.mul_le_mul_left _ hp2
  have h2 : data.length * 99 < 100 * data.length := by nlinarith
  exact Nat.div_lt_of_lt_mul (lt_of_le_of_lt h1 h2)

/-- C1: the spec requires the percentile to be the type-7 linearly
interpolated quantile, but the percentile ladder of the code reports the
single order statistic at index floor(n·p/100) of the sorted data, with no
interpolation: on the distribution [0, 1] at p = 50 the code reports the
order statistic 1 while the type-7 quantile is 1/2. -/
theorem percentile_is_order_statistic_not_interpolated :
    (∀ (data : List ℚ) (p : ℕ),
      percentileValue data p = (sortData data).getD (data.length * p / 100) 0) ∧
    percentileValue [0, 1] 50 = 1 ∧
    quantileType7Spec [0, 1] 50 = 1 / 2 ∧
    percentileValue [0, 1] 50 ≠ quantileType7Spec [0, 1] 50 := by
  refine ⟨fun data p => by rw [percentileValue, jsFloor_mul_div], ?_, ?_, ?_⟩
  · norm_num [percentileValue, sortData, jsFloor, List.insertionSort,
      List.orderedInsert]
  · norm_num [quantileType7Spec, sortData, jsFloor, List.insertionSort,
      List.orderedInsert]
  · norm_num [percentileValue, quantileType7Spec, sortData, jsFloor,
      List.insertionSort, List.orderedInsert]

/-- C2: for a fixed nonempty distribution the percentile value at index
floor(n·p/100) of the sorted data is non-decreasing in the level p, and
consequently VaR, defined from it by the spec's formula
VaR_α = −percentile(100·(1−α)), is non-decreasing in the confidence
level. -/
theorem percentile_and_var_monotone (data : List ℚ) (p1 p2 c1 c2 : ℕ)
    (hdata : data ≠ []) (hp : p1 ≤ p2) (hp2 : p2 ≤ 99)
    (hc1 : 1 ≤ c1) (hc : c1 ≤ c2) (hc2 : c2 ≤ 99) :
    percentileValue data p1 ≤ percentileValue data p2 ∧
    varAtConfidence data c1 ≤ varAtConfidence data c2 := by
  refine ⟨percentileValue_mono data hdata hp hp2, ?_⟩
  rw [varAtConfidence, varAtConfidence, neg_le_neg_iff]
  exact percentileValue_mono data hdata (by omega) (by omega)

/-- Witness for C2 at the concrete distribution [3, 1, 2] with the
percentile pair 10 ≤ 90 and the confidence pair 90 ≤ 95. -/
theorem percentile_and_var_monotone_witness :
    percentileValue [3, 1, 2] 10 ≤ percentileValue [3, 1, 2] 90 ∧
    varAtConfidence [3, 1, 2] 90 ≤ varAtConfidence [3, 1, 2] 95 :=
  percentile_and_var_monotone [3, 1, 2] 10 90 90 95 (by simp) (by omega)
    (by omega) (by omega) (by omega) (by omega)

/-- C6: the percentile table leaves the stored distribution unchanged (it
sorts a copy), but the 5th/95th-percentile summary cards sort the state
array in place: on the stored distribution [1, 0] the cards render the
values (0, 1) and leave the stored array reordered to [0, 1], so result
data is not read-only under the cards' computation. -/
theorem summary_cards_mutate_state_table_does_not :
    (∀ s : List ℚ, (renderPercentileTable s).2 = s) ∧
    (renderSummaryCards [1, 0]).2 = [0, 1] ∧
    (renderSummaryCards [1, 0]).2 ≠ [1, 0] ∧
    (renderSummaryCards [1, 0]).1 = (0, 1) := by
  refine ⟨fun s => rfl, by decide, by decide, ?_⟩
  norm_num [renderSummaryCards, sortData, jsFloor, List.insertionSort,
    List.orderedInsert]

/-- The nested optimal_hedge_ratio object of the OptimizationResult
interface of Backtest.tsx (lines 23–33), structurally identical to the
forwards/options/natural part of HedgeConfig in types/index.ts
(lines 17–22). -/
structure OptimalHedgeAllocation where
  forwards : ℚ
  options : ℚ
  natural : ℚ
deriving DecidableEq, Inhabited

/-- The OptimizationResult interface of Backtest.tsx (lines 23–33). -/
structure OptimizationResult where
  optimal_hedge_ratio : OptimalHedgeAllocation
  expected_npm : ℚ
  expected_roa : ℚ
  cvar_95 : ℚ
  sharpe_ratio : ℚ
deriving DecidableEq, Inhabited

/-- runOptimization of Backtest.tsx (lines 47–64): after a fixed delay it
stores a hard-coded OptimizationResult.  The component state cvarTarget is
in scope but never read, so the function is modelled as a (constant)
function of it. -/
def runOptimization (cvarTarget : ℚ) : OptimizationResult :=
  { optimal_hedge_ratio := { forwards := 0.52, options := 0.28, natural := 0.20 }
    expected_npm := 0.1245
    expected_roa := 0.1521
    cvar_95 := 0.0485
    sharpe_ratio := 1.85 }

/-- The EfficientFrontierPoint interface of Backtest.tsx (lines 35–40). -/
structure EfficientFrontierPoint where
  hedge_ratio : ℚ
  expected_npm : ℚ
  npm_std : ℚ
  cvar_95 : ℚ
deriving DecidableEq, Inhabited

/-- generateEfficientFrontier of Backtest.tsx (lines 67–81):
`Array.from({length: 21}, (_, i) => ...)` over i = 0, …, 20. -/
def generateEfficientFrontier : List EfficientFrontierPoint :=
  (List.range 21).map fun (i : ℕ) =>
    let hedge_ratio : ℚ := (i : ℚ) * 0.05
    let base_npm : ℚ := 0.12
    let volatility_reduction := hedge_ratio * 0.04
    let hedge_cost := hedge_ratio * 0.008
    { hedge_ratio := hedge_ratio
      expected_npm := base_npm - hedge_cost + volatility_reduction * 0.3
      npm_std := 0.03 * (1 - hedge_ratio * 0.7)
      cvar_95 := 0.08 * (1 - hedge_ratio * 0.65) }

/-- frontierData of Backtest.tsx (line 83). -/
def frontierData : List EfficientFrontierPoint :=
  generateEfficientFrontier

/-- One row of the strategy comparison table of Backtest.tsx
(lines 436–443). -/
structure StrategyRow where
  name : String
  ratio : ℚ
  npm : ℚ
  std : ℚ
  cvar : ℚ
  sharpe : ℚ
  highlight : Bool := false
deriving DecidableEq, Inhabited

/-- The strategy comparison table of Backtest.tsx (lines 436–443). -/
def strategyComparison : List StrategyRow :=
  [ { name := "No Hedge", ratio := 0, npm := 0.120, std := 0.030,
      cvar := 0.080, sharpe := 0.50 },
    { name := "Conservative (25%)", ratio := 0.25, npm := 0.122, std := 0.024,
      cvar := 0.063, sharpe := 1.10 },
    { name := "Moderate (50%)", ratio := 0.50, npm := 0.124, std := 0.018,
      cvar := 0.048, sharpe := 1.65 },
    { name := "Optimal (CVaR)", ratio := 0.52, npm := 0.1245, std := 0.017,
      cvar := 0.0485, sharpe := 1.85, highlight := true },
    { name := "Aggressive (75%)", ratio := 0.75, npm := 0.123, std := 0.012,
      cvar := 0.035, sharpe := 1.75 },
    { name := "Full Hedge (100%)", ratio := 1.00, npm := 0.120, std := 0.008,
      cvar := 0.025, sharpe := 1.40 } ]

/-- The CVaR-target slider of Backtest.tsx (lines 113–135): a range input
with min 0.02, max 0.10 whose committed value the browser clamps to
[min, max]. -/
def sliderClamp (v : ℚ) : ℚ :=
  max 0.02 (min 0.10 v)

theorem frontierData_length : frontierData.length = 21 := by
  rw [frontierData, generateEfficientFrontier, List.length_map, List.length_range]

/-- Closed form of the i-th generated frontier point. -/
theorem frontierData_getD (i : ℕ) (h : i < 21) :
    frontierData.getD i default =
      { hedge_ratio := (i : ℚ) * 0.05
        expected_npm := 0.12 - (i : ℚ) * 0.05 * 0.008 + (i : ℚ) * 0.05 * 0.04 * 0.3
        npm_std := 0.03 * (1 - (i : ℚ) * 0.05 * 0.7)
        cvar_95 := 0.08 * (1 - (i : ℚ) * 0.05 * 0.65) } := by
  have hlen : i < frontierData.length := by rw [frontierData_length]; exact h
  rw [List.getD_eq_getElem _ _ hlen]
  simp only [frontierData, generateEfficientFrontier, List.getElem_map,
    List.getElem_range]

/-- C3: CVaR₉₅ strictly decreases when moving from the unhedged point to the
50% hedge ratio: on the generated frontier the value drops from 0.08 to
0.08·(1 − 0.65·0.5) = 0.054, and in the strategy comparison table from
0.080 to 0.048. -/
theorem cvar_at_half_hedge_below_unhedged :
    (frontierData.getD 10 default).hedge_ratio = 0.5 ∧
    (frontierData.getD 0 default).hedge_ratio = 0 ∧
    (frontierData.getD 10 default).cvar_95 = 0.054 ∧
    (frontierData.getD 0 default).cvar_95 = 0.08 ∧
    (frontierData.getD 10 default).cvar_95 < (frontierData.getD 0 default).cvar_95 ∧
    (strategyComparison.getD 2 default).ratio = 0.50 ∧
    (strategyComparison.getD 2 default).cvar = 0.048 ∧
    (strategyComparison.getD 0 default).ratio = 0 ∧
    (strategyComparison.getD 0 default).cvar = 0.080 ∧
    (strategyComparison.getD 2 default).cvar < (strategyComparison.getD 0 default).cvar := by
  rw [frontierData_getD 10 (by omega), frontierData_getD 0 (by omega)]
  norm_num [strategyComparison]

/-- C4: the efficient frontier is a deterministic sweep of the hedge ratio
over [0, 1] in steps of 0.05: exactly 21 points, the i-th having hedge
ratio i·0.05, so the sequence starts at 0, ends at 1 and is strictly
increasing, and each point records the hedge ratio, expected NPM, NPM
standard deviation and CVaR₉₅ of that step. -/
theorem frontier_deterministic_sweep :
    frontierData.length = 21 ∧
    (∀ i : Fin 21, (frontierData.getD (i : ℕ) default).hedge_ratio = ((i : ℕ) : ℚ) * 0.05) ∧
    (frontierData.getD 0 default).hedge_ratio = 0 ∧
    (frontierData.getD 20 default).hedge_ratio = 1 ∧
    (∀ i : Fin 20, (frontierData.getD (i : ℕ) default).hedge_ratio
        < (frontierData.getD ((i : ℕ) + 1) default).hedge_ratio) ∧
    (∀ i : Fin 21, frontierData.getD (i : ℕ) default =
      { hedge_ratio := ((i : ℕ) : ℚ) * 0.05
        expected_npm := 0.12 - ((i : ℕ) : ℚ) * 0.05 * 0.008 + ((i : ℕ) : ℚ) * 0.05 * 0.04 * 0.3
        npm_std := 0.03 * (1 - ((i : ℕ) : ℚ) * 0.05 * 0.7)
        cvar_95 := 0.08 * (1 - ((i : ℕ) : ℚ) * 0.05 * 0.65) }) := by
  refine ⟨frontierData_length, fun i => ?_, ?_, ?_, fun i => ?_, fun i => ?_⟩
  · rw [frontierData_getD _ i.isLt]
  · rw [frontierData_getD 0 (by omega)]; norm_num
  · rw [frontierData_getD 20 (by omega)]; norm_num
  · rw [frontierData_getD _ (by omega : (i : ℕ) < 21),
      frontierData_getD _ (by omega : (i : ℕ) + 1 < 21)]
    have hq : ((i : ℕ) : ℚ) < (((i : ℕ) + 1 : ℕ) : ℚ) := by push_cast; linarith
    push_cast
    nlinarith [hq]
  · exact frontierData_getD _ i.isLt

/-- C5: the allocation returned by runOptimization is feasible for every
requested CVaR target: forwards, options and natural each lie in [0, 1]
and their sum is exactly 1 (hence at most 1). -/
theorem optimizer_allocation_feasible (t : ℚ) :
    0 ≤ (runOptimization t).optimal_hedge_ratio.forwards ∧
    (runOptimization t).optimal_hedge_ratio.forwards ≤ 1 ∧
    0 ≤ (runOptimization t).optimal_hedge_ratio.options ∧
    (runOptimization t).optimal_hedge_ratio.options ≤ 1 ∧
    0 ≤ (runOptimization t).optimal_hedge_ratio.natural ∧
    (runOptimization t).optimal_hedge_ratio.natural ≤ 1 ∧
    (runOptimization t).optimal_hedge_ratio.forwards
      + (runOptimization t).optimal_hedge_ratio.options
      + (runOptimization t).optimal_hedge_ratio.natural = 1 ∧
    (runOptimization t).optimal_hedge_ratio.forwards
      + (runOptimization t).optimal_hedge_ratio.options
      + (runOptimization t).optimal_hedge_ratio.natural ≤ 1 ∧
    (runOptimization t).optimal_hedge_ratio =
      { forwards := 0.52, options := 0.28, natural := 0.20 } := by
  norm_num [runOptimization]

/-- C8: no InvalidConfiguration check exists on the optimization path:
runOptimization returns the same successful result for every CVaR target,
including targets the spec declares invalid (negative or greater than 1);
the only constraint on the target in the code is the slider, which clamps
its value to [0.02, 0.10]. -/
theorem no_cvar_target_validation (t v : ℚ) :
    runOptimization t = runOptimization 0.05 ∧
    runOptimization (-(1 : ℚ) / 2) = runOptimization 0.05 ∧
    runOptimization 2 = runOptimization 0.05 ∧
    0.02 ≤ sliderClamp v ∧ sliderClamp v ≤ 0.10 := by
  refine ⟨rfl, rfl, rfl, le_max_left _ _, ?_⟩
  exact max_le (by norm_num) (min_le_left _ _)

/-- C9: the optimization result carries no information about the requested
CVaR target: runOptimization returns the identical hard-coded result for
any two targets — allocation {forwards 0.52, options 0.28, natural 0.20},
expected NPM 0.1245, expected ROA 0.1521, CVaR₉₅ 0.0485, Sharpe 1.85. -/
theorem optimization_independent_of_cvar_target (t1 t2 : ℚ) :
    runOptimization t1 = runOptimization t2 ∧
    runOptimization t1 =
      { optimal_hedge_ratio := { forwards := 0.52, options := 0.28, natural := 0.20 }
        expected_npm := 0.1245
        expected_roa := 0.1521
        cvar_95 := 0.0485
        sharpe_ratio := 1.85 } :=
  ⟨rfl, rfl⟩

/-- C10: along the generated frontier, expected NPM is strictly increasing
in the hedge ratio while NPM standard deviation is strictly decreasing, so
every later point — in particular the fully-hedged one — dominates every
earlier point in both dimensions. -/
theorem frontier_return_up_risk_down (i j : Fin 21) (hij : i < j) :
    (frontierData.getD (i : ℕ) default).expected_npm
      < (frontierData.getD (j : ℕ) default).expected_npm ∧
    (frontierData.getD (j : ℕ) default).npm_std
      < (frontierData.getD (i : ℕ) default).npm_std := by
  rw [frontierData_getD _ i.isLt, frontierData_getD _ j.isLt]
  have hq : ((i : ℕ) : ℚ) < ((j : ℕ) : ℚ) := by exact_mod_cast hij
  constructor <;> nlinarith [hq]

/-- Witness for C10 at the unhedged point and the fully hedged point. -/
theorem frontier_return_up_risk_down_witness :
    (frontierData.getD ((0 : Fin 21) : ℕ) default).expected_npm
      < (frontierData.getD ((20 : Fin 21) : ℕ) default).expected_npm ∧
    (frontierData.getD ((20 : Fin 21) : ℕ) default).npm_std
      < (frontierData.getD ((0 : Fin 21) : ℕ) default).npm_std :=
  frontier_return_up_risk_down 0 20 (by decide)

/-- The RiskMetric interface of types/index.ts (lines 71–75): one risk
number for each of the three profitability metrics. -/
structure RiskMetric where
  npm : ℚ
  roa : ℚ
  profit : ℚ
deriving DecidableEq

/-- The VaRMetrics interface of types/index.ts (lines 77–81). -/
structure VaRMetrics where
  var_90 : RiskMetric
  var_95 : RiskMetric
  var_99 : RiskMetric
deriving DecidableEq

/-- The CVaRMetrics interface of types/index.ts (lines 83–87). -/
structure CVaRMetrics where
  cvar_90 : RiskMetric
  cvar_95 : RiskMetric
  cvar_99 : RiskMetric
deriving DecidableEq

/-- The VolatilityMetric interface of types/index.ts (lines 89–92). -/
structure VolatilityMetric where
  total : ℚ
  downside : ℚ
deriving DecidableEq

/-- The VolatilityMetrics interface of types/index.ts (lines 94–98). -/
structure VolatilityMetrics where
  npm : VolatilityMetric
  roa : VolatilityMetric
  profit : VolatilityMetric
deriving DecidableEq

/-- The RiskAdjustedMetrics interface of types/index.ts (lines 100–105). -/
structure RiskAdjustedMetrics where
  npm_sharpe : ℚ
  npm_sortino : ℚ
  roa_sharpe : ℚ
  roa_sortino : ℚ
deriving DecidableEq

/-- The Percentile interface of types/index.ts (lines 107–117). -/
structure Percentile where
  p01 : ℚ
  p05 : ℚ
  p10 : ℚ
  p25 : ℚ
  p50 : ℚ
  p75 : ℚ
  p90 : ℚ
  p95 : ℚ
  p99 : ℚ
deriving DecidableEq

/-- The PercentileMetrics interface of types/index.ts (lines 119–122). -/
structure PercentileMetrics where
  npm : Percentile
  roa : Percentile
deriving DecidableEq

/-- The ProbabilityMetrics interface of types/index.ts (lines 124–129). -/
structure ProbabilityMetrics where
  npm_negative : ℚ
  npm_below_5pct : ℚ
  roa_negative : ℚ
  roa_below_5pct : ℚ
deriving DecidableEq

/-- The RiskMetrics interface of types/index.ts (lines 131–138), the shape
of every RiskMetricsResult returned to the frontend. -/
structure RiskMetrics where
  var : VaRMetrics
  cvar : CVaRMetrics
  volatility : VolatilityMetrics
  risk_adjusted : RiskAdjustedMetrics
  percentiles : PercentileMetrics
  probability : ProbabilityMetrics
deriving DecidableEq

/-- The confidence levels at which VaR and CVaR are reported. -/
inductive ConfLevel
  | l90
  | l95
  | l99
deriving DecidableEq

def ConfLevel.percent : ConfLevel → ℕ
  | .l90 => 90
  | .l95 => 95
  | .l99 => 99

def ConfLevel.all : List ConfLevel :=
  [.l90, .l95, .l99]

/-- The three profitability metrics VaR/CVaR/volatility are reported for. -/
inductive MetricKind
  | npm
  | roa
  | profit
deriving DecidableEq

/-- Total versus downside volatility. -/
inductive VolKind
  | total
  | downside
deriving DecidableEq

/-- Sharpe versus Sortino. -/
inductive RatioKind
  | sharpe
  | sortino
deriving DecidableEq

/-- The two metrics risk-adjusted ratios and percentile ladders cover. -/
inductive NpmRoa
  | npm
  | roa
deriving DecidableEq

/-- The nine levels of the percentile ladder. -/
inductive PercLevel
  | p01
  | p05
  | p10
  | p25
  | p50
  | p75
  | p90
  | p95
  | p99
deriving DecidableEq

def PercLevel.percent : PercLevel → ℕ
  | .p01 => 1
  | .p05 => 5
  | .p10 => 10
  | .p25 => 25
  | .p50 => 50
  | .p75 => 75
  | .p90 => 90
  | .p95 => 95
  | .p99 => 99

def PercLevel.all : List PercLevel :=
  [.p01, .p05, .p10, .p25, .p50, .p75, .p90, .p95, .p99]

/-- The four tail-probability metrics. -/
inductive TailEvent
  | npm_negative
  | npm_below_5pct
  | roa_negative
  | roa_below_5pct
deriving DecidableEq

def TailEvent.all : List TailEvent :=
  [.npm_negative, .npm_below_5pct, .roa_negative, .roa_below_5pct]

/-- Canonical form of the spec's RiskMetricsResult: VaR/CVaR at exactly the
levels {90, 95, 99} for exactly {NPM, ROA, net profit}, total and downside
volatility per metric, Sharpe/Sortino for NPM and ROA, the nine-level
percentile ladder for NPM and ROA, and the four tail probabilities. -/
@[ext]
structure SpecRiskShape where
  var : ConfLevel → MetricKind → ℚ
  cvar : ConfLevel → MetricKind → ℚ
  volatility : MetricKind → VolKind → ℚ
  risk_adjusted : NpmRoa → RatioKind → ℚ
  percentiles : NpmRoa → PercLevel → ℚ
  probability : TailEvent → ℚ

def RiskMetric.component : RiskMetric → MetricKind → ℚ
  | m, .npm => m.npm
  | m, .roa => m.roa
  | m, .profit => m.profit

/-- Reading every component of a RiskMetrics value into the canonical spec
shape. -/
def riskMetricsToShape (m : RiskMetrics) : SpecRiskShape where
  var := fun l =>
    (match l with
      | .l90 => m.var.var_90
      | .l95 => m.var.var_95
      | .l99 => m.var.var_99).component
  cvar := fun l =>
    (match l with
      | .l90 => m.cvar.cvar_90
      | .l95 => m.cvar.cvar_95
      | .l99 => m.cvar.cvar_99).component
  volatility := fun k v =>
    match k, v with
    | .npm, .total => m.volatility.npm.total
    | .npm, .downside => m.volatility.npm.downside
    | .roa, .total => m.volatility.roa.total
    | .roa, .downside => m.volatility.roa.downside
    | .profit, .total => m.volatility.profit.total
    | .profit, .downside => m.volatility.profit.downside
  risk_adjusted := fun b r =>
    match b, r with
    | .npm, .sharpe => m.risk_adjusted.npm_sharpe
    | .npm, .sortino => m.risk_adjusted.npm_sortino
    | .roa, .sharpe => m.risk_adjusted.roa_sharpe
    | .roa, .sortino => m.risk_adjusted.roa_sortino
  percentiles := fun b =>
    let pc := match b with
      | NpmRoa.npm => m.percentiles.npm
      | NpmRoa.roa => m.percentiles.roa
    fun q =>
      match q with
      | .p01 => pc.p01
      | .p05 => pc.p05
      | .p10 => pc.p10
      | .p25 => pc.p25
      | .p50 => pc.p50
      | .p75 => pc.p75
      | .p90 => pc.p90
      | .p95 => pc.p95
      | .p99 => pc.p99
  probability := fun e =>
    match e with
    | .npm_negative => m.probability.npm_negative
    | .npm_below_5pct => m.probability.npm_below_5pct
    | .roa_negative => m.probability.roa_negative
    | .roa_below_5pct => m.probability.roa_below_5pct

/-- Rebuilding a RiskMetrics value from the canonical spec shape. -/
def shapeToRiskMetrics (s : SpecRiskShape) : RiskMetrics where
  var :=
    { var_90 := ⟨s.var .l90 .npm, s.var .l90 .roa, s.var .l90 .profit⟩
      var_95 := ⟨s.var .l95 .npm, s.var .l95 .roa, s.var .l95 .profit⟩
      var_99 := ⟨s.var .l99 .npm, s.var .l99 .roa, s.var .l99 .profit⟩ }
  cvar :=
    { cvar_90 := ⟨s.cvar .l90 .npm, s.cvar .l90 .roa, s.cvar .l90 .profit⟩
      cvar_95 := ⟨s.cvar .l95 .npm, s.cvar .l95 .roa, s.cvar .l95 .profit⟩
      cvar_99 := ⟨s.cvar .l99 .npm, s.cvar .l99 .roa, s.cvar .l99 .profit⟩ }
  volatility :=
    { npm := ⟨s.volatility .npm .total, s.volatility .npm .downside⟩
      roa := ⟨s.volatility .roa .total, s.volatility .roa .downside⟩
      profit := ⟨s.volatility .profit .total, s.volatility .profit .downside⟩ }
  risk_adjusted :=
    ⟨s.risk_adjusted .npm .sharpe, s.risk_adjusted .npm .sortino,
      s.risk_adjusted .roa .sharpe, s.risk_adjusted .roa .sortino⟩
  percentiles :=
    { npm := ⟨s.percentiles .npm .p01, s.percentiles .npm .p05,
        s.percentiles .npm .p10, s.percentiles .npm .p25,
        s.percentiles .npm .p50, s.percentiles .npm .p75,
        s.percentiles .npm .p90, s.percentiles .npm .p95,
        s.percentiles .npm .p99⟩
      roa := ⟨s.percentiles .roa .p01, s.percentiles .roa .p05,
        s.percentiles .roa .p10, s.percentiles .roa .p25,
        s.percentiles .roa .p50, s.percentiles .roa .p75,
        s.percentiles .roa .p90, s.percentiles .roa .p95,
        s.percentiles .roa .p99⟩ }
  probability :=
    ⟨s.probability .npm_negative, s.probability .npm_below_5pct,
      s.probability .roa_negative, s.probability .roa_below_5pct⟩

theorem shape_left_inverse :
    Function.LeftInverse shapeToRiskMetrics riskMetricsToShape :=
  fun _ => rfl

theorem shape_right_inverse :
    Function.RightInverse shapeToRiskMetrics riskMetricsToShape := by
  intro s
  refine SpecRiskShape.ext ?_ ?_ ?_ ?_ ?_ ?_
  · funext l k
    cases l <;> cases k <;> rfl
  · funext l k
    cases l <;> cases k <;> rfl
  · funext k v
    cases k <;> cases v <;> rfl
  · funext b r
    cases b <;> cases r <;> rfl
  · funext b q
    cases b <;> cases q <;> rfl
  · funext e
    cases e <;> rfl

/-- C7: a RiskMetrics value consists of exactly the components the spec
lists for RiskMetricsResult — VaR and CVaR at {90, 95, 99}% for
{NPM, ROA, net profit}, downside and total volatility per metric,
Sharpe/Sortino for NPM and ROA, the percentile ladder p01…p99 for NPM and
ROA, and the four tail probabilities — and nothing else: reading those
components is a bijection onto the canonical spec shape, and the level
enumerations are exactly {90, 95, 99} and {1, 5, 10, 25, 50, 75, 90, 95,
99}. -/
theorem risk_metrics_exact_shape :
    Function.Bijective riskMetricsToShape ∧
    (∀ l : ConfLevel, l ∈ ConfLevel.all) ∧
    ConfLevel.all.map ConfLevel.percent = [90, 95, 99] ∧
    (∀ q : PercLevel, q ∈ PercLevel.all) ∧
    PercLevel.all.map PercLevel.percent = [1, 5, 10, 25, 50, 75, 90, 95, 99] ∧
    (∀ e : TailEvent, e ∈ TailEvent.all) ∧
    TailEvent.all.length = 4 := by
  refine ⟨⟨shape_left_inverse.injective, shape_right_inverse.surjective⟩,
    fun l => ?_, rfl, fun q => ?_, rfl, fun e => ?_, rfl⟩
  · cases l <;> decide
  · cases q <;> decide
  · cases e <;> decide
